import Mathlib

unseal Rat.add Rat.mul Rat.inv Rat.sub Rat.ofScientific

/-!
Shallow embedding of the "Gallon Logger" sprayer-tank inventory application
(src/App.tsx, src/types.ts, src/constants.ts).

JavaScript numbers are modelled by `JNum`: either NaN, one of the two
infinities, or a finite value represented exactly as a rational.  The
arithmetic, comparison and formatting operations used by the program
(`+`, `-`, `Math.min`, `Math.abs`, `*`, `/`, `<=`, `<`, `isNaN`,
truthiness, `toFixed`, `parseFloat`) are given their JavaScript semantics
on this type.  `toFixed` follows the ECMAScript specification (round the
magnitude to the nearest multiple of 10^-d, ties away from zero); the
exact binary-double representation of inputs is not modelled, so values
behave as the exact decimal the operator typed.

The Firestore event store is modelled as the in-memory list of appended
`LogEntry` records (newest first, exactly the `logs` component state that
the `onSnapshot` listener maintains by reversing the ascending query).
Store readiness (`isAuthReady`/`db`/`userId`) is assumed: the guards that
merely wait for initialisation are outside the validated ledger logic.
-/

namespace GallonLogger

/-- A JavaScript number: NaN, +Infinity, -Infinity, or a finite value
(the exact rational the operator entered; negative zero is not
distinguished from zero, and no claim depends on it). -/
inductive JNum where
  | nan : JNum
  | posInf : JNum
  | negInf : JNum
  | fin : ℚ → JNum
deriving DecidableEq

/-- JavaScript `isNaN`. -/
def jIsNaN : JNum → Bool
  | .nan => true
  | _ => false

/-- JavaScript `<=` (false whenever either side is NaN). -/
def jle : JNum → JNum → Bool
  | .nan, _ => false
  | _, .nan => false
  | .negInf, _ => true
  | _, .posInf => true
  | .posInf, _ => false
  | .fin _, .negInf => false
  | .fin a, .fin b => decide (a ≤ b)

/-- JavaScript `<` (false whenever either side is NaN). -/
def jlt : JNum → JNum → Bool
  | .nan, _ => false
  | _, .nan => false
  | .negInf, .negInf => false
  | .negInf, _ => true
  | .posInf, _ => false
  | .fin _, .negInf => false
  | .fin _, .posInf => true
  | .fin a, .fin b => decide (a < b)

/-- JavaScript `>`: `x > y` is `y < x`. -/
def jgt (x y : JNum) : Bool := jlt y x

/-- JavaScript unary minus. -/
def jneg : JNum → JNum
  | .nan => .nan
  | .posInf => .negInf
  | .negInf => .posInf
  | .fin a => .fin (-a)

/-- JavaScript `+` on numbers (`Infinity + -Infinity` is NaN). -/
def jadd : JNum → JNum → JNum
  | .nan, _ => .nan
  | _, .nan => .nan
  | .posInf, .negInf => .nan
  | .negInf, .posInf => .nan
  | .posInf, _ => .posInf
  | _, .posInf => .posInf
  | .negInf, _ => .negInf
  | _, .negInf => .negInf
  | .fin a, .fin b => .fin (a + b)

/-- JavaScript `-` on numbers. -/
def jsub (x y : JNum) : JNum := jadd x (jneg y)

/-- JavaScript `Math.min` (NaN if either argument is NaN). -/
def jmin : JNum → JNum → JNum
  | .nan, _ => .nan
  | _, .nan => .nan
  | .negInf, _ => .negInf
  | _, .negInf => .negInf
  | .posInf, y => y
  | x, .posInf => x
  | .fin a, .fin b => .fin (min a b)

/-- JavaScript `*` on numbers (`Infinity * 0` is NaN). -/
def jmul : JNum → JNum → JNum
  | .nan, _ => .nan
  | _, .nan => .nan
  | .posInf, .posInf => .posInf
  | .posInf, .negInf => .negInf
  | .negInf, .posInf => .negInf
  | .negInf, .negInf => .posInf
  | .posInf, .fin b => if b = 0 then .nan else if 0 < b then .posInf else .negInf
  | .fin a, .posInf => if a = 0 then .nan else if 0 < a then .posInf else .negInf
  | .negInf, .fin b => if b = 0 then .nan else if 0 < b then .negInf else .posInf
  | .fin a, .negInf => if a = 0 then .nan else if 0 < a then .negInf else .posInf
  | .fin a, .fin b => .fin (a * b)

/-- JavaScript `/` on numbers (`x / 0` is a signed infinity for `x ≠ 0`
and NaN for `x = 0`; a finite value divided by an infinity is zero). -/
def jdiv : JNum → JNum → JNum
  | .nan, _ => .nan
  | _, .nan => .nan
  | .posInf, .posInf => .nan
  | .posInf, .negInf => .nan
  | .negInf, .posInf => .nan
  | .negInf, .negInf => .nan
  | .posInf, .fin b => if 0 ≤ b then .posInf else .negInf
  | .negInf, .fin b => if 0 ≤ b then .negInf else .posInf
  | .fin _, .posInf => .fin 0
  | .fin _, .negInf => .fin 0
  | .fin a, .fin b =>
      if b = 0 then (if a = 0 then .nan else if 0 < a then .posInf else .negInf)
      else .fin (a / b)

/-- JavaScript `Math.abs`. -/
def jabs : JNum → JNum
  | .nan => .nan
  | .posInf => .posInf
  | .negInf => .posInf
  | .fin a => .fin |a|

/-- JavaScript truthiness test for a number: falsy iff NaN or zero. -/
def jFalsy : JNum → Bool
  | .nan => true
  | .posInf => false
  | .negInf => false
  | .fin a => decide (a = 0)

/-- JavaScript `x || 0` for a number `x`: 0 when `x` is falsy. -/
def jFalsyOr0 (x : JNum) : JNum := if jFalsy x then .fin 0 else x

/-- The integer selected by ECMAScript `toFixed` for a scaled value `q`:
the integer nearest to `q`, ties resolved away from zero (the spec picks
the larger candidate for the magnitude, after the sign is split off). -/
def jfixInt (q : ℚ) : ℤ := if q < 0 then -⌊-q + 1/2⌋ else ⌊q + 1/2⌋

/-- `parseFloat(x.toFixed(2))` on a finite value: round to two decimals. -/
def round2 (q : ℚ) : ℚ := (jfixInt (q * 100) : ℚ) / 100

/-- `parseFloat(x.toFixed(2))` on a JavaScript number (`"NaN"` parses
back to NaN and `"Infinity"` to Infinity, so only finite values change). -/
def jround2 : JNum → JNum
  | .nan => .nan
  | .posInf => .posInf
  | .negInf => .negInf
  | .fin q => .fin (round2 q)

/-- Exactly `d` decimal digits of `n` (most significant first, zero padded). -/
def padZeros : ℕ → ℕ → String
  | 0, _ => ""
  | d + 1, n => padZeros d (n / 10) ++ String.singleton (Nat.digitChar (n % 10))

/-- ECMAScript `Number.prototype.toFixed d` on a finite value. -/
def toFixedQ (d : ℕ) (q : ℚ) : String :=
  let s := if q < 0 then "-" else ""
  let m : ℕ := (jfixInt (q * (10 : ℚ) ^ d)).natAbs
  if d = 0 then s ++ toString m
  else s ++ toString (m / 10 ^ d) ++ "." ++ padZeros d (m % 10 ^ d)

/-- `Number.prototype.toFixed d` on a JavaScript number. -/
def jToFixed (d : ℕ) : JNum → String
  | .nan => "NaN"
  | .posInf => "Infinity"
  | .negInf => "-Infinity"
  | .fin q => toFixedQ d q

/-- Number-to-string coercion (template literals).  For the values this
program renders - finite decimals, whose denominators divide a power of
ten - this is the exact shortest decimal expansion JavaScript prints.
Rationals with a non-terminating expansion cannot arise from `parseFloat`
input and fall back to a fraction rendering. -/
def qToJsString (q : ℚ) : String :=
  let s := if q < 0 then "-" else ""
  let n := q.num.natAbs
  match (List.range 21).find? (fun k => 10 ^ k % q.den == 0) with
  | some k =>
      let m := n * (10 ^ k / q.den)
      if k = 0 then s ++ toString m
      else s ++ toString (m / 10 ^ k) ++ "." ++ padZeros k (m % 10 ^ k)
  | none => s ++ toString n ++ "/" ++ toString q.den

/-- Template-literal rendering of a JavaScript number. -/
def jNumToString : JNum → String
  | .nan => "NaN"
  | .posInf => "Infinity"
  | .negInf => "-Infinity"
  | .fin q => qToJsString q

/-- Greedily consume decimal digits: returns the value read, how many
digits were read, and the remaining characters. -/
def takeDigits : List Char → ℕ → ℕ → ℕ × ℕ × List Char
  | [], v, c => (v, c, [])
  | ch :: rest, v, c =>
      if ch.isDigit then takeDigits rest (v * 10 + (ch.toNat - 48)) (c + 1)
      else (v, c, ch :: rest)

/-- JavaScript `parseFloat` on the decimal forms this program produces:
optional leading whitespace, optional sign, `Infinity`, or digits with an
optional fractional part; trailing garbage is ignored and an empty
significand yields NaN.  (Exponent notation never occurs in the strings
this program parses back - they come from `toFixed`.) -/
def jsParseFloat (s : String) : JNum :=
  let cs := s.data.dropWhile (fun c => c.isWhitespace)
  let sign : Bool × List Char :=
    match cs with
    | '-' :: r => (true, r)
    | '+' :: r => (false, r)
    | r => (false, r)
  let neg := sign.1
  let cs1 := sign.2
  if cs1.take 8 = "Infinity".data then (if neg then .negInf else .posInf)
  else
    let ip := takeDigits cs1 0 0
    match ip.2.2 with
    | '.' :: cs3 =>
        let fp := takeDigits cs3 0 0
        if ip.2.1 = 0 ∧ fp.2.1 = 0 then .nan
        else
          let q : ℚ := (ip.1 : ℚ) + (fp.1 : ℚ) / 10 ^ fp.2.1
          .fin (if neg then -q else q)
    | _ => if ip.2.1 = 0 then .nan else .fin (if neg then -(ip.1 : ℚ) else (ip.1 : ℚ))

/-- JavaScript `String.prototype.trim`: strip whitespace from both ends. -/
def jsTrim (s : String) : String :=
  ⟨((s.data.dropWhile Char.isWhitespace).reverse.dropWhile Char.isWhitespace).reverse⟩

/-- `string | number` - the type of the stored `ozPerGal` field
(src/types.ts: `ozPerGal: string | number`). -/
inductive StrOrNum where
  | str : String → StrOrNum
  | num : JNum → StrOrNum
deriving DecidableEq

/-- A chemical in a mix (src/types.ts `Chemical`). -/
structure Chemical where
  name : String
  totalOz : JNum
  ozPerGal : StrOrNum
deriving DecidableEq

/-- Environmental conditions (src/types.ts `WeatherConditions`). -/
structure WeatherConditions where
  weather : String
  temperature : JNum
  windDirection : String
  windSpeed : JNum
deriving DecidableEq

/-- One appended event (src/types.ts `LogEntry`).  `weatherConditions`
is `none` for the empty object `{}` stored by refills.  `timestamp` is
the server-assigned timestamp, carried as its rendered `toLocaleString`
text (`none` while the server has not yet confirmed one, rendered
"N/A" exactly as `log.timestamp?.toDate ? ... : 'N/A'` does). -/
structure LogEntry where
  roadName : String
  gallonsUsed : JNum
  gallonsLeft : JNum
  initialTankVolume : JNum
  chemicalMix : List Chemical
  weatherConditions : Option WeatherConditions
  timestamp : Option String
deriving DecidableEq

/-- src/App.tsx lines 180-182: `calculateOzPerGal` returns the 4-decimal
string `(totalOz / tankVolume).toFixed(4)` when `tankVolume > 0` and the
number `0` otherwise (never dividing by zero). -/
def calculateOzPerGal (totalOz tankVolume : JNum) : StrOrNum :=
  if jgt tankVolume (.fin 0) then .str (jToFixed 4 (jdiv totalOz tankVolume))
  else .num (.fin 0)

/-- Decidable equality of fallible results, for evaluating the ledger
operations on concrete inputs. -/
instance instDecEqExcept {ε α : Type} [DecidableEq ε] [DecidableEq α] :
    DecidableEq (Except ε α) := fun x y =>
  match x, y with
  | .ok a, .ok b =>
      match decEq a b with
      | isTrue h => isTrue (congrArg Except.ok h)
      | isFalse h => isFalse (fun hc => h (Except.ok.inj hc))
  | .error a, .error b =>
      match decEq a b with
      | isTrue h => isTrue (congrArg Except.error h)
      | isFalse h => isFalse (fun hc => h (Except.error.inj hc))
  | .ok _, .error _ => isFalse (fun hc => Except.noConfusion hc)
  | .error _, .ok _ => isFalse (fun hc => Except.noConfusion hc)

/-- The validation-error taxonomy of the specification (section 7); each
constructor corresponds to one early-return status message in
src/App.tsx (`EmptyRoad` = "Please select a Road Name",
`NonPositiveVolume` = the invalid-amount messages, `InsufficientInventory`
= "... exceeds Gallons Left", `EmptyChemicalMix` = "Please add at least
one chemical", `IncompleteConditions` = "Please complete all
Environmental Conditions fields", `TankFull` = "Could not refill: Tank is
already full or amount added is too small"). -/
inductive ValError where
  | EmptyRoad
  | NonPositiveVolume
  | InsufficientInventory
  | EmptyChemicalMix
  | IncompleteConditions
  | TankFull
deriving DecidableEq

/-- src/App.tsx lines 267-324 `logApplication`: validations in source
order, then the appended Firestore document.  `gallonsLeft` and
`startingGallons` are the current derived state; `ts` is the
server-assigned timestamp of the append. -/
def logApplication (selectedRoad : String) (gallonsUsedOnRoad : JNum)
    (chemicalMix : List Chemical) (weather : String) (temperature : JNum)
    (windDirection : String) (windSpeed : JNum)
    (gallonsLeft startingGallons : JNum) (ts : Option String) :
    Except ValError LogEntry :=
  let gallonsUsed := gallonsUsedOnRoad
  if jsTrim selectedRoad = "" then .error .EmptyRoad
  else if jIsNaN gallonsUsed || jle gallonsUsed (.fin 0) then .error .NonPositiveVolume
  else if jgt gallonsUsed gallonsLeft then .error .InsufficientInventory
  else if chemicalMix.length = 0 then .error .EmptyChemicalMix
  else if jsTrim weather = "" || jFalsy temperature || windDirection = "" || jFalsy windSpeed then
    .error .IncompleteConditions
  else
    .ok { roadName := selectedRoad,
          gallonsUsed := jround2 gallonsUsed,
          gallonsLeft := jround2 (jsub gallonsLeft gallonsUsed),
          initialTankVolume := startingGallons,
          chemicalMix := chemicalMix,
          weatherConditions := some { weather := jsTrim weather,
                                      temperature := temperature,
                                      windDirection := windDirection,
                                      windSpeed := windSpeed },
          timestamp := ts }

/-- The result of a successful refill: the appended event plus whether
the request was capped (the code reports "capped from ..." exactly when
`newGallonsLeft < currentTotal`). -/
structure RefillResult where
  entry : LogEntry
  capped : Bool
deriving DecidableEq

/-- src/App.tsx lines 217-255 `performRefill` (after the readiness
guard): cap at capacity, reject additions of at most 0.01 gallons,
otherwise append a refill event storing the negated actual addition. -/
def performRefill (gallonsAdded : JNum) (gallonsLeft startingGallons : JNum)
    (ts : Option String) : Except ValError RefillResult :=
  let currentTotal := jadd gallonsLeft gallonsAdded
  let newGallonsLeft := jmin startingGallons currentTotal
  let actualAdded := jsub newGallonsLeft gallonsLeft
  if jle actualAdded (.fin (1/100)) then .error .TankFull
  else
    .ok { entry := { roadName := "TANK REFILL",
                     gallonsUsed := jneg actualAdded,
                     gallonsLeft := jround2 newGallonsLeft,
                     initialTankVolume := startingGallons,
                     chemicalMix := [],
                     weatherConditions := none,
                     timestamp := ts },
          capped := jlt newGallonsLeft currentTotal }

/-- src/App.tsx lines 257-264 `handleRefill`: the `logRefill` operation of
the specification - reject NaN or non-positive requests, then perform the
refill.  (`parseFloat(x.toString())` is the identity on numbers.) -/
def handleRefill (gallonsToRefill : JNum) (gallonsLeft startingGallons : JNum)
    (ts : Option String) : Except ValError RefillResult :=
  if jIsNaN gallonsToRefill || jle gallonsToRefill (.fin 0) then .error .NonPositiveVolume
  else performRefill gallonsToRefill gallonsLeft startingGallons ts

/-- The modelled slice of component state: configured capacity
(`startingGallons`), derived inventory (`gallonsLeft`), the event list as
maintained by the snapshot listener (newest first), and the staged,
not-yet-logged chemical mix. -/
structure AppState where
  startingGallons : JNum
  gallonsLeft : JNum
  logs : List LogEntry
  chemicalMix : List Chemical
deriving DecidableEq

/-- src/App.tsx lines 30-36: the configured default state. -/
def initialState : AppState :=
  { startingGallons := .fin 600, gallonsLeft := .fin 600, logs := [], chemicalMix := [] }

/-- The effect of the snapshot listener (src/App.tsx lines 109-127) after
one successful append: the new event heads the newest-first list, the
derived `gallonsLeft` is the stored `gallonsLeft` of the last event, and
`startingGallons` is its stored `initialTankVolume` (both fields are
always numbers in the model, so the `typeof` guards pass). -/
def applyAppend (s : AppState) (e : LogEntry) : AppState :=
  { s with logs := e :: s.logs,
           gallonsLeft := e.gallonsLeft,
           startingGallons := e.initialTankVolume }

/-- One ledger call: a `logApplication` (with the inputs staged at call
time) or a `logRefill`.  `ts` is the server-assigned timestamp. -/
inductive Op where
  | app (road : String) (volume : JNum) (chems : List Chemical)
        (weather : String) (temperature : JNum) (windDirection : String)
        (windSpeed : JNum) (ts : Option String) : Op
  | refill (volume : JNum) (ts : Option String) : Op

/-- Execute one ledger call against the current state: a validation
failure appends nothing and leaves the state unchanged; a success appends
the event and lets the listener update the derived state. -/
def step (s : AppState) : Op → AppState
  | .app road u chems w temp wd ws ts =>
      match logApplication road u chems w temp wd ws s.gallonsLeft s.startingGallons ts with
      | .ok e => applyAppend s e
      | .error _ => s
  | .refill x ts =>
      match handleRefill x s.gallonsLeft s.startingGallons ts with
      | .ok r => applyAppend s r.entry
      | .error _ => s

/-- Run a sequence of ledger calls. -/
def runOps (s : AppState) (ops : List Op) : AppState := ops.foldl step s

/-- src/App.tsx lines 574-578 and 207-214: editing the Total Capacity
input sets `startingGallons` to `parseFloat(value) || 1`, clamps
`gallonsLeft` to the new capacity, and the `useEffect` on
`startingGallons` recomputes the ratio of every staged chemical against
the new capacity.  Already-appended events are untouched. -/
def handleCapacityChange (s : AppState) (raw : JNum) : AppState :=
  let val := if jFalsy raw then JNum.fin 1 else raw
  { startingGallons := val,
    gallonsLeft := jmin val s.gallonsLeft,
    logs := s.logs,
    chemicalMix := s.chemicalMix.map (fun c =>
      { c with ozPerGal := calculateOzPerGal c.totalOz val }) }

/-- src/App.tsx line 328: the application partition of the report. -/
def applicationLogsOf (logs : List LogEntry) : List LogEntry :=
  logs.filter (fun l => l.roadName != "TANK REFILL")

/-- src/App.tsx line 329: the refill partition of the report. -/
def refillLogsOf (logs : List LogEntry) : List LogEntry :=
  logs.filter (fun l => l.roadName == "TANK REFILL")

/-- src/App.tsx line 831: the history table renders exactly the events
whose label differs from the refill sentinel. -/
def historyTableRows (logs : List LogEntry) : List LogEntry :=
  logs.filter (fun l => l.roadName != "TANK REFILL")

/-- src/App.tsx line 139: the predicate of the `logs.find(...)` scan -
an event that is not a refill and carries a non-empty `weather` field
(an empty `weatherConditions` object has no `weather`, hence is skipped;
the object itself is truthy, so only the field test matters). -/
def hasLoggedConditions (l : LogEntry) : Bool :=
  l.roadName != "TANK REFILL" &&
    (match l.weatherConditions with
     | some w => w.weather != ""
     | none => false)

/-- src/App.tsx lines 138-149 `lastAppliedConditions`: the first match in
the newest-first list, i.e. the chronologically last Application carrying
conditions; `none` when no event qualifies. -/
def lastAppliedConditions (logs : List LogEntry) : Option WeatherConditions :=
  (logs.find? hasLoggedConditions).bind (fun l => l.weatherConditions)

/-- src/App.tsx lines 367-372: one chemical line of an application entry,
`gallonsUsed * (parseFloat(chem.ozPerGal as string) || 0)` rendered to
two decimals.  A number-valued `ozPerGal` round-trips through its string
form unchanged. -/
def chemLine (logGallonsUsed : JNum) (chem : Chemical) : String :=
  let ozPerGal := jFalsyOr0 (match chem.ozPerGal with
    | .str s => jsParseFloat s
    | .num n => n)
  let gallonsUsed := jFalsyOr0 logGallonsUsed
  let ozCalculated := jmul gallonsUsed ozPerGal
  "    - " ++ chem.name ++ ": " ++ jToFixed 2 ozCalculated ++ " oz applied\n"

/-- Rendered timestamp: `log.timestamp?.toDate ? ...toLocaleString() : 'N/A'`. -/
def tsText (l : LogEntry) : String :=
  match l.timestamp with
  | some t => t
  | none => "N/A"

/-- src/App.tsx lines 359-374: one numbered entry of the application
section. -/
def renderAppEntry (num : ℕ) (log : LogEntry) : String :=
  "ENTRY #" ++ toString num ++ " (Logged: " ++ tsText log ++ ")\n" ++
  "Road Name: " ++ log.roadName ++ "\n" ++
  "Gallons Used: " ++ jToFixed 2 log.gallonsUsed ++ " gal\n" ++
  "Gallons Left: " ++ jToFixed 2 log.gallonsLeft ++ " gal\n" ++
  "  Chemical Mix:\n" ++
  String.join (log.chemicalMix.map (chemLine log.gallonsUsed)) ++
  "--------------------------------------------\n"

/-- src/App.tsx lines 383-389: one numbered entry of the refill section
(the negative stored delta is rendered through `Math.abs`). -/
def renderRefillEntry (num : ℕ) (log : LogEntry) : String :=
  "REFILL #" ++ toString num ++ " (Logged: " ++ tsText log ++ ")\n" ++
  "Gallons ADDED: " ++ jToFixed 2 (jabs log.gallonsUsed) ++ " gal\n" ++
  "Gallons Left: " ++ jToFixed 2 log.gallonsLeft ++ " gal\n" ++
  "--------------------------------------------\n"

/-- The `forEach((log, index) => ...)` accumulation: entry `index` is
numbered `len - index`. -/
def renderEntriesFrom (render : ℕ → LogEntry → String) (len : ℕ) :
    ℕ → List LogEntry → String
  | _, [] => ""
  | i, l :: rest => render (len - i) l ++ renderEntriesFrom render len (i + 1) rest

/-- src/App.tsx lines 331-339: the report header. -/
def reportHeader (appCount refillCount : ℕ) (userId : String)
    (startingGallons : JNum) (genDate genTime : String) : String :=
  "============================================\n" ++
  "APPLICATION HISTORY REPORT\n" ++
  "============================================\n" ++
  "Generated: " ++ genDate ++ " " ++ genTime ++ "\n" ++
  "User ID: " ++ userId ++ "\n" ++
  "Total Tank Capacity: " ++ jNumToString startingGallons ++ " gallons\n" ++
  "Total Road Applications: " ++ toString appCount ++ "\n" ++
  "Total Refills: " ++ toString refillCount ++ "\n" ++
  "============================================\n\n"

/-- src/App.tsx lines 341-351: the leading conditions section - the last
logged Application's conditions, or an explicit N/A marker. -/
def conditionsSection (c : Option WeatherConditions) : String :=
  match c with
  | some w =>
      ">>> ENVIRONMENTAL CONDITIONS (Last Logged) <<<\n" ++
      "Weather: " ++ w.weather ++ "\n" ++
      "Temperature: " ++ jNumToString w.temperature ++ "°F\n" ++
      "Wind: " ++ jNumToString w.windSpeed ++ " MPH from the " ++ w.windDirection ++ "\n" ++
      "--------------------------------------------\n\n"
  | none =>
      ">>> ENVIRONMENTAL CONDITIONS: N/A\n" ++
      "--------------------------------------------\n\n"

/-- src/App.tsx lines 353-375: the application section, rendered from the
application partition alone. -/
def appSection (apps : List LogEntry) : String :=
  ">>> ROAD APPLICATION LOGS <<<\n" ++
  "--------------------------------------------\n" ++
  (if apps.length = 0 then "No road application data to report.\n\n"
   else renderEntriesFrom renderAppEntry apps.length 0 apps)

/-- src/App.tsx lines 377-390: the refill section, rendered from the
refill partition alone. -/
def refillSection (refills : List LogEntry) : String :=
  "\n>>> TANK REFILL LOGS <<<\n" ++
  "--------------------------------------------\n" ++
  (if refills.length = 0 then "No tank refill data to report.\n\n"
   else renderEntriesFrom renderRefillEntry refills.length 0 refills)

/-- src/App.tsx lines 327-392 `generateReportContent`.  The two
`new Date()` reads are the explicit `genDate`/`genTime` inputs (the
generation timestamp the specification declares as a report input), and
the memoised `lastAppliedConditions` is passed explicitly. -/
def generateReportContent (logs : List LogEntry) (userId : String)
    (startingGallons : JNum) (lastConds : Option WeatherConditions)
    (genDate genTime : String) : String :=
  reportHeader (applicationLogsOf logs).length (refillLogsOf logs).length
      userId startingGallons genDate genTime ++
  conditionsSection lastConds ++
  appSection (applicationLogsOf logs) ++
  refillSection (refillLogsOf logs)

/-- `generateReportContent` with `lastAppliedConditions` derived from the
same snapshot, exactly as the component wires it. -/
def generateReport (logs : List LogEntry) (userId : String)
    (startingGallons : JNum) (genDate genTime : String) : String :=
  generateReportContent logs userId startingGallons
    (lastAppliedConditions logs) genDate genTime

/-- The descending sequence-number list `[n, n-1, ..., 1]`. -/
def countdown : ℕ → List ℕ
  | 0 => []
  | n + 1 => (n + 1) :: countdown n

/-! ### Rounding bounds -/

theorem jfixInt_nonneg (q : ℚ) (h : 0 ≤ q) : 0 ≤ jfixInt q := by
  unfold jfixInt
  rw [if_neg (not_lt.mpr h)]
  exact Int.le_floor.mpr (by push_cast; linarith)

theorem jfixInt_le_int (q : ℚ) (n : ℤ) (h : q ≤ n) : jfixInt q ≤ n := by
  unfold jfixInt
  split_ifs with hq
  · have h2 : (-n : ℤ) ≤ ⌊-q + 1/2⌋ := Int.le_floor.mpr (by push_cast; linarith)
    linarith
  · have h2 : ⌊q + 1/2⌋ < n + 1 := Int.floor_lt.mpr (by push_cast; linarith)
    linarith

theorem round2_nonneg (q : ℚ) (h : 0 ≤ q) : 0 ≤ round2 q := by
  unfold round2
  have h1 : 0 ≤ jfixInt (q * 100) := jfixInt_nonneg _ (by positivity)
  have h2 : (0 : ℚ) ≤ (jfixInt (q * 100) : ℚ) := by exact_mod_cast h1
  linarith

theorem round2_le_600 (q : ℚ) (h : q ≤ 600) : round2 q ≤ 600 := by
  unfold round2
  have h1 : jfixInt (q * 100) ≤ (60000 : ℤ) := jfixInt_le_int _ _ (by push_cast; linarith)
  have h2 : (jfixInt (q * 100) : ℚ) ≤ (60000 : ℚ) := by exact_mod_cast h1
  linarith

/-! ### The inventory invariant -/

/-- The invariant maintained by every ledger call from the default
state: the capacity is the configured 600 and the derived inventory is a
finite value in `[0, 600]`. -/
def TankInv (s : AppState) : Prop :=
  s.startingGallons = .fin 600 ∧
  ∃ g : ℚ, s.gallonsLeft = .fin g ∧ 0 ≤ g ∧ g ≤ 600

theorem tankInv_initial : TankInv initialState :=
  ⟨rfl, 600, rfl, by norm_num, by norm_num⟩

theorem tankInv_step (s : AppState) (op : Op) (hInv : TankInv s) :
    TankInv (step s op) := by
  obtain ⟨hcap, g, hgl, hg0, hg6⟩ := hInv
  cases op with
  | app road u chems w temp wd ws ts =>
      simp only [step]
      cases hE : logApplication road u chems w temp wd ws s.gallonsLeft s.startingGallons ts with
      | error err => exact ⟨hcap, g, hgl, hg0, hg6⟩
      | ok e =>
          rw [hgl, hcap] at hE
          simp only [logApplication] at hE
          split_ifs at hE with h1 h2 h3 h4 h5 <;> try exact Except.noConfusion hE
          rw [Except.ok.injEq] at hE
          subst hE
          refine ⟨rfl, ?_⟩
          cases u with
          | nan => simp [jIsNaN] at h2
          | posInf => simp [jgt, jlt] at h3
          | negInf => simp [jIsNaN, jle] at h2
          | fin q =>
              have hq0 : 0 < q := by
                simp only [jIsNaN, jle, Bool.false_or, decide_eq_true_eq] at h2
                exact lt_of_not_le h2
              have hqg : q ≤ g := by
                simp only [jgt, jlt, decide_eq_true_eq] at h3
                exact le_of_not_lt h3
              refine ⟨round2 (g + -q), ?_, ?_, ?_⟩
              · simp [applyAppend, jsub, jneg, jadd, jround2]
              · exact round2_nonneg _ (by linarith)
              · exact round2_le_600 _ (by linarith)
  | refill x ts =>
      simp only [step]
      cases hE : handleRefill x s.gallonsLeft s.startingGallons ts with
      | error err => exact ⟨hcap, g, hgl, hg0, hg6⟩
      | ok r =>
          rw [hgl, hcap] at hE
          simp only [handleRefill, performRefill] at hE
          split_ifs at hE with h1 h2 <;> try exact Except.noConfusion hE
          rw [Except.ok.injEq] at hE
          subst hE
          refine ⟨rfl, ?_⟩
          cases x with
          | nan => simp [jIsNaN] at h1
          | negInf => simp [jIsNaN, jle] at h1
          | posInf =>
              refine ⟨round2 600, ?_, ?_, ?_⟩
              · simp [applyAppend, jadd, jmin, jround2]
              · exact round2_nonneg _ (by norm_num)
              · exact round2_le_600 _ (by norm_num)
          | fin q =>
              have hq0 : 0 < q := by
                simp only [jIsNaN, jle, Bool.false_or, decide_eq_true_eq] at h1
                exact lt_of_not_le h1
              refine ⟨round2 (min 600 (g + q)), ?_, ?_, ?_⟩
              · simp [applyAppend, jadd, jmin, jround2]
              · exact round2_nonneg _ (le_min (by norm_num) (by linarith))
              · exact round2_le_600 _ (min_le_left _ _)

theorem tankInv_runOps (ops : List Op) (s : AppState) (hInv : TankInv s) :
    TankInv (runOps s ops) := by
  induction ops generalizing s with
  | nil => exact hInv
  | cons op rest ih => exact ih (step s op) (tankInv_step s op hInv)

/-- C1: for every sequence of `logApplication`/`logRefill` calls (those
whose inputs fail validation append nothing and change nothing), starting
from the configured default state, the derived `gallonsLeft` after each
call is a finite value within `[0, capacity]`, the capacity staying at
the configured 600.  Every prefix of a call sequence is itself a call
sequence, so this bounds the state after each successful call. -/
theorem C1_inventory_within_capacity (ops : List Op) :
    (runOps initialState ops).startingGallons = .fin 600 ∧
    ∃ g : ℚ, (runOps initialState ops).gallonsLeft = .fin g ∧ 0 ≤ g ∧ g ≤ 600 :=
  tankInv_runOps ops initialState tankInv_initial

/-! ### Refill semantics on finite inputs -/

theorem performRefill_fin (x g c : ℚ) (ts : Option String) :
    performRefill (.fin x) (.fin g) (.fin c) ts =
      if min c (g + x) - g ≤ 1/100 then .error .TankFull
      else .ok { entry := { roadName := "TANK REFILL",
                            gallonsUsed := .fin (-(min c (g + x) - g)),
                            gallonsLeft := .fin (round2 (min c (g + x))),
                            initialTankVolume := .fin c,
                            chemicalMix := [],
                            weatherConditions := none,
                            timestamp := ts },
                 capped := decide (min c (g + x) < g + x) } := by
  simp only [performRefill, jadd, jmin, jsub, jneg, jle, jlt, jround2,
    decide_eq_true_eq, sub_eq_add_neg]

/-- C2 (amended): for every positive finite refill request `x` against
the derived state `(capacity, gallonsLeft)`, `logRefill` computes
`actualAdded = min(capacity, gallonsLeft + x) - gallonsLeft`; if
`actualAdded ≤ 0.01` it fails with `TankFull` and appends nothing (in
particular whenever `gallonsLeft = capacity`), otherwise it appends a
Refill event with `volumeDelta = -actualAdded` and stored (hence derived)
new `gallonsLeft = gallonsLeft + actualAdded` rounded to two decimals,
reporting the request as capped exactly when `actualAdded < x`. -/
theorem C2_refill_semantics (cap g x : ℚ) (ts : Option String) (hx : 0 < x) :
    (min cap (g + x) - g ≤ 1/100 →
      handleRefill (.fin x) (.fin g) (.fin cap) ts = .error .TankFull) ∧
    (1/100 < min cap (g + x) - g →
      handleRefill (.fin x) (.fin g) (.fin cap) ts =
        .ok { entry := { roadName := "TANK REFILL",
                         gallonsUsed := .fin (-(min cap (g + x) - g)),
                         gallonsLeft := .fin (round2 (min cap (g + x))),
                         initialTankVolume := .fin cap,
                         chemicalMix := [],
                         weatherConditions := none,
                         timestamp := ts },
              capped := decide (min cap (g + x) - g < x) }) ∧
    (g = cap → handleRefill (.fin x) (.fin g) (.fin cap) ts = .error .TankFull) ∧
    (∀ s : AppState, s.gallonsLeft = .fin g → s.startingGallons = .fin cap →
      min cap (g + x) - g ≤ 1/100 → step s (.refill (.fin x) ts) = s) := by
  have hval : handleRefill (.fin x) (.fin g) (.fin cap) ts =
      performRefill (.fin x) (.fin g) (.fin cap) ts := by
    simp [handleRefill, jIsNaN, jle, not_le.mpr hx]
  have hcapped : decide (min cap (g + x) < g + x) = decide (min cap (g + x) - g < x) := by
    apply decide_eq_decide.mpr
    constructor
    · intro h; linarith
    · intro h; linarith
  have hfull : min cap (g + x) - g ≤ 1/100 →
      handleRefill (.fin x) (.fin g) (.fin cap) ts = .error .TankFull := by
    intro hsmall
    rw [hval, performRefill_fin, if_pos hsmall]
  refine ⟨hfull, ?_, ?_, ?_⟩
  · intro hbig
    rw [hval, performRefill_fin, if_neg (not_le.mpr hbig), hcapped]
  · intro hgc
    apply hfull
    have hmin : min cap (g + x) = cap := min_eq_left (by linarith)
    rw [hmin, hgc]
    norm_num
  · intro s hsg hsc hsmall
    simp only [step, hsg, hsc, hfull hsmall]

/-- C2, counterexample to the claim as stated: with capacity 600,
gallonsLeft 580 and request x = 0.016 (an accepted refill, since
actualAdded = 0.016 > 0.01), the appended event stores - and the listener
hence derives - gallonsLeft 580.02 = 29001/50, not
gallonsLeft + actualAdded = 580.016: the stored value is the two-decimal
rounding of that sum, not the sum itself. -/
theorem C2_counterexample :
    handleRefill (.fin (2/125)) (.fin 580) (.fin 600) none =
      .ok { entry := { roadName := "TANK REFILL",
                       gallonsUsed := .fin (-(2/125)),
                       gallonsLeft := .fin (29001/50),
                       initialTankVolume := .fin 600,
                       chemicalMix := [],
                       weatherConditions := none,
                       timestamp := none },
            capped := false } ∧
    (29001/50 : ℚ) ≠ 580 + (min 600 (580 + 2/125) - 580) := by
  exact ⟨by decide, by decide⟩

theorem C2_refill_semantics_witness :
    handleRefill (.fin 50) (.fin 580) (.fin 600) none =
      .ok { entry := { roadName := "TANK REFILL",
                       gallonsUsed := .fin (-20),
                       gallonsLeft := .fin 600,
                       initialTankVolume := .fin 600,
                       chemicalMix := [],
                       weatherConditions := none,
                       timestamp := none },
            capped := true } := by
  have h := (C2_refill_semantics 600 580 50 none (by decide)).2.1 (by decide)
  exact h.trans (by decide)

/-- C3 (amended): provided the earlier validations pass (non-blank road
name, volume neither NaN nor non-positive), every `logApplication` call
whose volume exceeds the current derived `gallonsLeft` fails with
`InsufficientInventory` - regardless of the staged mix or conditions -
and appends nothing: the state (event sequence and derived values) is
unchanged.  (With a blank road the call still appends nothing but fails
with the earlier `EmptyRoad` error instead.) -/
theorem C3_insufficient_inventory (s : AppState) (road : String) (u : JNum)
    (chems : List Chemical) (w : String) (temp : JNum) (wd : String) (ws : JNum)
    (ts : Option String)
    (hroad : jsTrim road ≠ "") (hnan : jIsNaN u = false)
    (hpos : jle u (.fin 0) = false) (hgt : jgt u s.gallonsLeft = true) :
    logApplication road u chems w temp wd ws s.gallonsLeft s.startingGallons ts =
      .error .InsufficientInventory ∧
    step s (.app road u chems w temp wd ws ts) = s := by
  have hlog : logApplication road u chems w temp wd ws s.gallonsLeft s.startingGallons ts =
      .error .InsufficientInventory := by
    simp only [logApplication]
    rw [if_neg hroad]
    rw [if_neg (by simp [hnan, hpos])]
    rw [if_pos hgt]
  exact ⟨hlog, by simp only [step, hlog]⟩

/-- C3, counterexample to the claim as stated: a call whose volume (700)
exceeds the derived gallonsLeft (600) but whose road name is blank fails
with `EmptyRoad`, not `InsufficientInventory` - the blank-road validation
runs first.  (It still appends nothing.) -/
theorem C3_counterexample :
    logApplication "" (.fin 700) [] "Clear" (.fin 70) "South West" (.fin 5)
        (.fin 600) (.fin 600) none = .error .EmptyRoad ∧
    jgt (.fin 700) (.fin 600) = true ∧
    ValError.EmptyRoad ≠ ValError.InsufficientInventory := by
  exact ⟨by decide, by decide, by decide⟩

theorem C3_insufficient_inventory_witness :
    logApplication "Elk" (.fin 700) [] "" (.fin 0) "" (.fin 0)
        (AppState.gallonsLeft ⟨.fin 600, .fin 600, [], []⟩)
        (AppState.startingGallons ⟨.fin 600, .fin 600, [], []⟩) none =
      .error .InsufficientInventory :=
  (C3_insufficient_inventory ⟨.fin 600, .fin 600, [], []⟩ "Elk" (.fin 700) [] ""
    (.fin 0) "" (.fin 0) none (by decide) (by decide) (by decide) (by decide)).1

/-- C9 (amended): every volume input that is NaN or non-positive is
rejected with `NonPositiveVolume` before any append is attempted - by
`logRefill` always, and by `logApplication` once the road-name check has
passed - and the state is unchanged.  The validation does not test
finiteness: positive infinity passes it (see the counterexample, where an
infinite refill request is accepted and capped). -/
theorem C9_nonpositive_rejected (x : JNum)
    (hx : jIsNaN x = true ∨ jle x (.fin 0) = true) :
    (∀ (g cap : JNum) (ts : Option String),
        handleRefill x g cap ts = .error .NonPositiveVolume) ∧
    (∀ (s : AppState) (ts : Option String), step s (.refill x ts) = s) ∧
    (∀ (road : String) (chems : List Chemical) (w : String) (temp : JNum)
        (wd : String) (ws : JNum) (g cap : JNum) (ts : Option String),
        jsTrim road ≠ "" →
        logApplication road x chems w temp wd ws g cap ts = .error .NonPositiveVolume) ∧
    (∀ (s : AppState) (road : String) (chems : List Chemical) (w : String)
        (temp : JNum) (wd : String) (ws : JNum) (ts : Option String),
        jsTrim road ≠ "" → step s (.app road x chems w temp wd ws ts) = s) := by
  have hbool : (jIsNaN x || jle x (.fin 0)) = true := by
    rcases hx with h | h <;> simp [h]
  have href : ∀ (g cap : JNum) (ts : Option String),
      handleRefill x g cap ts = .error .NonPositiveVolume := by
    intro g cap ts
    simp only [handleRefill]
    rw [if_pos hbool]
  have happ : ∀ (road : String) (chems : List Chemical) (w : String) (temp : JNum)
      (wd : String) (ws : JNum) (g cap : JNum) (ts : Option String),
      jsTrim road ≠ "" →
      logApplication road x chems w temp wd ws g cap ts = .error .NonPositiveVolume := by
    intro road chems w temp wd ws g cap ts hroad
    simp only [logApplication]
    rw [if_neg hroad]
    rw [if_pos hbool]
  refine ⟨href, ?_, happ, ?_⟩
  · intro s ts
    simp only [step, href s.gallonsLeft s.startingGallons ts]
  · intro s road chems w temp wd ws ts hroad
    simp only [step, happ road chems w temp wd ws s.gallonsLeft s.startingGallons ts hroad]

/-- C9, counterexample to the claim as stated: a refill request of
positive infinity is not a finite positive number, yet it is not rejected
(`isNaN` is false and `Infinity <= 0` is false): with capacity 600 and
gallonsLeft 580 the refill succeeds, capped at the free capacity, and
appends a refill event of 20 gallons. -/
theorem C9_counterexample :
    handleRefill .posInf (.fin 580) (.fin 600) none =
      .ok { entry := { roadName := "TANK REFILL",
                       gallonsUsed := .fin (-20),
                       gallonsLeft := .fin 600,
                       initialTankVolume := .fin 600,
                       chemicalMix := [],
                       weatherConditions := none,
                       timestamp := none },
            capped := true } ∧
    jIsNaN .posInf = false ∧ jle .posInf (.fin 0) = false := by
  exact ⟨by decide, by decide, by decide⟩

theorem C9_nonpositive_rejected_witness :
    handleRefill (.fin (-5)) (.fin 600) (.fin 600) none = .error .NonPositiveVolume :=
  (C9_nonpositive_rejected (.fin (-5)) (Or.inr (by decide))).1 (.fin 600) (.fin 600) none

/-- C10: a `logApplication` call whose road name is exactly the sentinel
string "TANK REFILL" passes validation (the road check only rejects blank
names) and appends an event carrying the staged chemicals and trimmed
conditions - yet every label-partitioning consumer classifies that event
as a Refill: it is dropped from the history table and the report's
application partition, prepended to the report's refill partition, and
even skipped by the last-conditions scan.  The Application/Refill
discrimination by label is therefore not injective at this interface. -/
theorem C10_sentinel_road_event (u g cap : ℚ) (chems : List Chemical)
    (w : String) (temp : JNum) (wd : String) (ws : JNum) (ts : Option String)
    (hu : 0 < u) (hug : u ≤ g) (hchems : chems.length ≠ 0)
    (hw : jsTrim w ≠ "") (htemp : jFalsy temp = false)
    (hwd : wd ≠ "") (hws : jFalsy ws = false) :
    logApplication "TANK REFILL" (.fin u) chems w temp wd ws (.fin g) (.fin cap) ts =
      .ok { roadName := "TANK REFILL",
            gallonsUsed := .fin (round2 u),
            gallonsLeft := .fin (round2 (g + -u)),
            initialTankVolume := .fin cap,
            chemicalMix := chems,
            weatherConditions := some { weather := jsTrim w, temperature := temp,
                                        windDirection := wd, windSpeed := ws },
            timestamp := ts } ∧
    (∀ e : LogEntry, e.roadName = "TANK REFILL" →
      hasLoggedConditions e = false ∧
      (∀ logs, historyTableRows (e :: logs) = historyTableRows logs) ∧
      (∀ logs, applicationLogsOf (e :: logs) = applicationLogsOf logs) ∧
      (∀ logs, refillLogsOf (e :: logs) = e :: refillLogsOf logs)) := by
  constructor
  · simp only [logApplication]
    rw [if_neg (by decide : ¬jsTrim "TANK REFILL" = "")]
    rw [if_neg (by simp [jIsNaN, jle, not_le.mpr hu])]
    rw [if_neg (by simp [jgt, jlt, not_lt.mpr hug])]
    rw [if_neg hchems]
    rw [if_neg (by simp [hw, htemp, hwd, hws])]
    simp [jsub, jneg, jadd, jround2]
  · intro e he
    refine ⟨?_, ?_, ?_, ?_⟩
    · simp [hasLoggedConditions, he]
    · intro logs; simp [historyTableRows, List.filter_cons, he]
    · intro logs; simp [applicationLogsOf, List.filter_cons, he]
    · intro logs; simp [refillLogsOf, List.filter_cons, he]

theorem C10_sentinel_road_event_witness :
    logApplication "TANK REFILL" (.fin 50)
        [{ name := "Milestone 2.5 Gal", totalOz := .fin 120, ozPerGal := .str "0.2000" }]
        "Clear" (.fin 70) "South West" (.fin 5) (.fin 600) (.fin 600) none =
      .ok { roadName := "TANK REFILL",
            gallonsUsed := .fin (round2 50),
            gallonsLeft := .fin (round2 (600 + -50)),
            initialTankVolume := .fin 600,
            chemicalMix := [{ name := "Milestone 2.5 Gal", totalOz := .fin 120,
                              ozPerGal := .str "0.2000" }],
            weatherConditions := some { weather := jsTrim "Clear", temperature := .fin 70,
                                        windDirection := "South West", windSpeed := .fin 5 },
            timestamp := none } :=
  (C10_sentinel_road_event 50 600 600
    [{ name := "Milestone 2.5 Gal", totalOz := .fin 120, ozPerGal := .str "0.2000" }]
    "Clear" (.fin 70) "South West" (.fin 5) none
    (by decide) (by decide) (by decide) (by decide) (by decide) (by decide) (by decide)).1

/-- C7: when the configured capacity changes before logging, every
chemical staged in the pending mix has its ratio recomputed against the
new capacity (after the `|| 1` fallback for empty/zero input), while the
appended event list - and hence the `ratioPerUnitVolume` stored inside
every already-logged Application event - is left unchanged.  Concretely,
the ratio 120 oz at capacity 600 is stored as "0.2000", and recomputing
at capacity 800 yields "0.1500" for the pending mix only: a logged
"0.2000" is frozen because the logs are untouched. -/
theorem C7_ratio_recompute_and_freeze (s : AppState) (raw : JNum) :
    (handleCapacityChange s raw).logs = s.logs ∧
    (handleCapacityChange s raw).startingGallons =
      (if jFalsy raw then JNum.fin 1 else raw) ∧
    (handleCapacityChange s raw).chemicalMix =
      s.chemicalMix.map (fun c =>
        { c with ozPerGal :=
            (calculateOzPerGal c.totalOz (if jFalsy raw then JNum.fin 1 else raw)) }) ∧
    calculateOzPerGal (.fin 120) (.fin 600) = .str "0.2000" ∧
    calculateOzPerGal (.fin 120) (.fin 800) = .str "0.1500" :=
  ⟨rfl, rfl, rfl, by decide, by decide⟩

/-- C8: the stored ratio is `totalQuantity / referenceVolume` rendered to
the fixed four-decimal text when the reference volume is positive and the
number-zero sentinel otherwise (the guard prevents any division by zero);
the reported applied quantity of a chemical is the logged usage times the
parsed stored ratio, rendered to two decimals; and the round trip is
exact: 120 oz at volume 600 stores "0.2000", and a logged usage of 50
reports exactly "10.00". -/
theorem C8_ratio_roundtrip (t v : ℚ) :
    (0 < v → calculateOzPerGal (.fin t) (.fin v) = .str (toFixedQ 4 (t / v))) ∧
    (v ≤ 0 → calculateOzPerGal (.fin t) (.fin v) = .num (.fin 0)) ∧
    (∀ (u : JNum) (name ratioText : String) (tq : JNum),
      chemLine u { name := name, totalOz := tq, ozPerGal := .str ratioText } =
        "    - " ++ name ++ ": " ++
          jToFixed 2 (jmul (jFalsyOr0 u) (jFalsyOr0 (jsParseFloat ratioText))) ++
          " oz applied\n") ∧
    toFixedQ 4 (120 / 600) = "0.2000" ∧
    chemLine (.fin 50) { name := "X", totalOz := .fin 120, ozPerGal := .str "0.2000" } =
      "    - X: 10.00 oz applied\n" := by
  refine ⟨?_, ?_, ?_, by decide, by decide⟩
  · intro hv
    have hv0 : v ≠ 0 := ne_of_gt hv
    simp [calculateOzPerGal, jgt, jlt, hv, jdiv, hv0, jToFixed]
  · intro hv
    simp [calculateOzPerGal, jgt, jlt, not_lt.mpr hv]
  · intro u name ratioText tq
    rfl

theorem C8_ratio_roundtrip_witness :
    calculateOzPerGal (.fin 120) (.fin 600) = .str (toFixedQ 4 (120 / 600)) :=
  (C8_ratio_roundtrip 120 600).1 (by decide)

/-! ### Report structure lemmas -/

theorem stringJoin_cons (s : String) (l : List String) :
    String.join (s :: l) = s ++ String.join l := by
  rw [String.join_eq, String.join_eq]
  cases s
  rfl

theorem renderEntriesFrom_eq_zipWith (render : ℕ → LogEntry → String) :
    ∀ (l : List LogEntry) (i : ℕ),
      renderEntriesFrom render (i + l.length) i l =
        String.join (List.zipWith render (countdown l.length) l) := by
  intro l
  induction l with
  | nil => intro i; rfl
  | cons a rest ih =>
      intro i
      have hlen : i + (a :: rest).length = (i + 1) + rest.length := by
        simp [List.length_cons]; omega
      simp only [renderEntriesFrom, List.length_cons, countdown, List.zipWith,
        stringJoin_cons]
      have h1 : i + (rest.length + 1) - i = rest.length + 1 := by omega
      rw [h1]
      have h2 : renderEntriesFrom render (i + (rest.length + 1)) (i + 1) rest =
          String.join (List.zipWith render (countdown rest.length) rest) := by
        have h3 : i + (rest.length + 1) = (i + 1) + rest.length := by omega
        rw [h3]
        exact ih (i + 1)
      rw [h2]

theorem countdown_getLast_one : ∀ n : ℕ, (countdown (n + 1)).getLast? = some 1 := by
  intro n
  induction n with
  | zero => rfl
  | succ m ih =>
      show ((m + 2) :: countdown (m + 1)).getLast? = some 1
      rw [show countdown (m + 1) = (m + 1) :: countdown m from rfl] at ih ⊢
      rw [List.getLast?_cons_cons]
      exact ih

theorem partition_lengths (logs : List LogEntry) :
    (applicationLogsOf logs).length + (refillLogsOf logs).length = logs.length := by
  unfold applicationLogsOf refillLogsOf
  induction logs with
  | nil => rfl
  | cons a rest ih =>
      by_cases h : a.roadName = "TANK REFILL"
      · simp [List.filter_cons, h]; omega
      · simp [List.filter_cons, h]; omega

/-- C4: the report text is a pure function of the event snapshot and the
other declared inputs - operator id, configured capacity, and the
generation timestamp (the two `new Date()` reads, passed here as the
explicit `genDate`/`genTime` parameters): calling it twice on the same
unchanged snapshot with the same declared inputs yields byte-identical
text, there being no other source of variation. -/
theorem C4_report_deterministic (logs1 logs2 : List LogEntry)
    (uid1 uid2 : String) (cap1 cap2 : JNum) (d1 d2 t1 t2 : String)
    (hlogs : logs1 = logs2) (huid : uid1 = uid2) (hcap : cap1 = cap2)
    (hd : d1 = d2) (ht : t1 = t2) :
    generateReport logs1 uid1 cap1 d1 t1 = generateReport logs2 uid2 cap2 d2 t2 := by
  rw [hlogs, huid, hcap, hd, ht]

theorem C4_report_deterministic_witness :
    generateReport [] "operator" (.fin 600) "1/1/2026" "12:00:00 PM" =
      generateReport [] "operator" (.fin 600) "1/1/2026" "12:00:00 PM" :=
  C4_report_deterministic [] [] "operator" "operator" (.fin 600) (.fin 600)
    "1/1/2026" "1/1/2026" "12:00:00 PM" "12:00:00 PM" rfl rfl rfl rfl rfl

/-- C5: the report partitions the events by label into Applications
(label different from the refill sentinel) and Refills (label equal to
it); each partition is an order-preserving subsequence of the newest-first
snapshot (so chronological order is preserved within each partition and
each is rendered most-recent-first); each section of the text is a
function of its own partition alone; the entries are numbered by the
descending sequence `[n, n-1, ..., 1]` - the newest entry carries the
partition's count (`countdown (n+1)` starts with `n+1`) and the oldest
carries `#1` (`countdown (n+1)` ends with `1`); and the two partitions
exactly exhaust the snapshot. -/
theorem C5_report_partitioning (logs : List LogEntry) (uid : String)
    (cap : JNum) (cond : Option WeatherConditions) (genDate genTime : String) :
    generateReportContent logs uid cap cond genDate genTime =
      reportHeader (applicationLogsOf logs).length (refillLogsOf logs).length
          uid cap genDate genTime ++
        conditionsSection cond ++
        appSection (applicationLogsOf logs) ++
        refillSection (refillLogsOf logs) ∧
    appSection (applicationLogsOf logs) =
      ">>> ROAD APPLICATION LOGS <<<\n" ++
      "--------------------------------------------\n" ++
      (if (applicationLogsOf logs).length = 0 then "No road application data to report.\n\n"
       else String.join (List.zipWith renderAppEntry
              (countdown (applicationLogsOf logs).length) (applicationLogsOf logs))) ∧
    refillSection (refillLogsOf logs) =
      "\n>>> TANK REFILL LOGS <<<\n" ++
      "--------------------------------------------\n" ++
      (if (refillLogsOf logs).length = 0 then "No tank refill data to report.\n\n"
       else String.join (List.zipWith renderRefillEntry
              (countdown (refillLogsOf logs).length) (refillLogsOf logs))) ∧
    (applicationLogsOf logs).Sublist logs ∧
    (refillLogsOf logs).Sublist logs ∧
    (applicationLogsOf logs).length + (refillLogsOf logs).length = logs.length ∧
    (∀ n : ℕ, countdown (n + 1) = (n + 1) :: countdown n) ∧
    (∀ n : ℕ, (countdown (n + 1)).getLast? = some 1) := by
  refine ⟨rfl, ?_, ?_, List.filter_sublist logs, List.filter_sublist logs,
    partition_lengths logs, fun n => rfl, countdown_getLast_one⟩
  · unfold appSection
    congr 1
    by_cases h : (applicationLogsOf logs).length = 0
    · rw [if_pos h, if_pos h]
    · rw [if_neg h, if_neg h]
      have := renderEntriesFrom_eq_zipWith renderAppEntry (applicationLogsOf logs) 0
      rw [Nat.zero_add] at this
      exact this
  · unfold refillSection
    congr 1
    by_cases h : (refillLogsOf logs).length = 0
    · rw [if_pos h, if_pos h]
    · rw [if_neg h, if_neg h]
      have := renderEntriesFrom_eq_zipWith renderRefillEntry (refillLogsOf logs) 0
      rw [Nat.zero_add] at this
      exact this

/-- C6: in the newest-first snapshot, write the logs as
`pre ++ e :: post` where every event in `pre` (the events more recent
than `e`, refills included) fails the scan predicate and `e` is an
Application with non-empty conditions - then the report's leading
conditions come from `e`, the chronologically last qualifying
Application, skipping the more recent non-qualifying events.  When no
event qualifies the scan yields `none`, and the section then renders the
explicit "N/A" marker rather than blank fields; the report always feeds
the scan's result to this section. -/
theorem C6_last_logged_conditions :
    (∀ (pre post : List LogEntry) (e : LogEntry),
        hasLoggedConditions e = true →
        (∀ x ∈ pre, hasLoggedConditions x = false) →
        lastAppliedConditions (pre ++ e :: post) = e.weatherConditions) ∧
    (∀ logs : List LogEntry, (∀ x ∈ logs, hasLoggedConditions x = false) →
        lastAppliedConditions logs = none) ∧
    conditionsSection none =
      ">>> ENVIRONMENTAL CONDITIONS: N/A\n" ++
      "--------------------------------------------\n\n" ∧
    (∀ (logs : List LogEntry) (uid : String) (cap : JNum) (d t : String),
        generateReport logs uid cap d t =
          generateReportContent logs uid cap (lastAppliedConditions logs) d t) := by
  have hnone : ∀ logs : List LogEntry,
      (∀ x ∈ logs, hasLoggedConditions x = false) → lastAppliedConditions logs = none := by
    intro logs hall
    unfold lastAppliedConditions
    rw [List.find?_eq_none.mpr (by intro x hx; simp [hall x hx])]
    rfl
  refine ⟨?_, hnone, rfl, fun logs uid cap d t => rfl⟩
  intro pre post e he hpre
  induction pre with
  | nil =>
      unfold lastAppliedConditions
      rw [List.nil_append, List.find?_cons_of_pos _ he]
      rfl
  | cons a rest ih =>
      have ha : hasLoggedConditions a = false := hpre a (List.mem_cons_self a rest)
      have hrest : ∀ x ∈ rest, hasLoggedConditions x = false := by
        intro x hx; exact hpre x (List.mem_cons_of_mem a hx)
      unfold lastAppliedConditions
      rw [List.cons_append, List.find?_cons_of_neg _ (by simp [ha])]
      exact ih hrest

theorem C6_last_logged_conditions_witness :
    lastAppliedConditions
        [{ roadName := "TANK REFILL", gallonsUsed := .fin (-20), gallonsLeft := .fin 570,
           initialTankVolume := .fin 600, chemicalMix := [], weatherConditions := none,
           timestamp := none },
         { roadName := "Elk", gallonsUsed := .fin 50, gallonsLeft := .fin 550,
           initialTankVolume := .fin 600,
           chemicalMix := [{ name := "X", totalOz := .fin 120, ozPerGal := .str "0.2000" }],
           weatherConditions := some { weather := "Clear", temperature := .fin 70,
                                       windDirection := "South West", windSpeed := .fin 5 },
           timestamp := none }] =
      some { weather := "Clear", temperature := .fin 70,
             windDirection := "South West", windSpeed := .fin 5 } :=
  C6_last_logged_conditions.1
    [{ roadName := "TANK REFILL", gallonsUsed := .fin (-20), gallonsLeft := .fin 570,
       initialTankVolume := .fin 600, chemicalMix := [], weatherConditions := none,
       timestamp := none }] []
    { roadName := "Elk", gallonsUsed := .fin 50, gallonsLeft := .fin 550,
      initialTankVolume := .fin 600,
      chemicalMix := [{ name := "X", totalOz := .fin 120, ozPerGal := .str "0.2000" }],
      weatherConditions := some { weather := "Clear", temperature := .fin 70,
                                  windDirection := "South West", windSpeed := .fin 5 },
      timestamp := none }
    (by decide) (List.forall_mem_singleton.mpr (by decide))

end GallonLogger
